import Mathlib

/-!
Shallow embedding of the ZYEON_AI_REALTIME backend
(`backend/src/services/ai_service.py`, `backend/src/services/voice_service.py`,
`backend/src/models/conversation.py`, `backend/src/main.py`) and proofs about it.

Conventions of the embedding:
* wall-clock timestamps (Python `time.time()` / `datetime.now().timestamp()`
  floats) are modelled as rationals `ℚ`;
* Python exceptions are modelled with `Except String`, the string being
  `str(e)`;
* Python dict metadata is modelled as an association list
  `List (String × String)`; the individual stringified values of wall-clock
  fields are irrelevant to every property proved here, only the keys and
  emptiness matter;
* mutation of `self` is modelled by explicit state passing: a method returns
  its result together with the updated object.
-/

namespace ZyeonAI

/-- `ai_service.py` lines 18-36, class `RateLimiter`: fields `max_calls`,
`time_window`, `calls` (a list of `time.time()` stamps). -/
structure RateLimiter where
  max_calls : ℕ
  time_window : ℚ
  calls : List ℚ
deriving DecidableEq, Repr

/-- `RateLimiter.can_make_call` (lines 26-32): recomputes `self.calls` keeping
only stamps with `now - call_time < self.time_window`, then returns
`len(self.calls) < self.max_calls`.  The pruning is an assignment to
`self.calls`, so the method returns the updated limiter as well. -/
def RateLimiter.can_make_call (rl : RateLimiter) (now : ℚ) : Bool × RateLimiter :=
  let pruned := rl.calls.filter (fun call_time => decide (now - call_time < rl.time_window))
  (decide (pruned.length < rl.max_calls), { rl with calls := pruned })

/-- `RateLimiter.record_call` (lines 34-36): `self.calls.append(time.time())`. -/
def RateLimiter.record_call (rl : RateLimiter) (now : ℚ) : RateLimiter :=
  { rl with calls := rl.calls ++ [now] }

/-- Outcome of the `retry_on_failure` wrapper (lines 38-53): the wrapped call
either returned a value, re-raised the last attempt's exception, or fell
through the `for` loop (Python's `return None`, reachable only when
`max_retries = 0`). -/
inductive RetryOutcome (ε α : Type) where
  | ok (a : α)
  | err (e : ε)
  | exhausted
deriving DecidableEq, Repr

/-- Trace of one run of the `retry_on_failure` wrapper: the outcome, how many
times the wrapped function was invoked, and the `time.sleep` durations
performed between attempts, in order. -/
structure RetryTrace (ε α : Type) where
  outcome : RetryOutcome ε α
  attempts : ℕ
  sleeps : List ℚ
deriving DecidableEq, Repr

/-- Loop body of `retry_on_failure` (lines 42-51): `for attempt in
range(max_retries)` with `fuel` remaining iterations; on exception at
`attempt == max_retries - 1` the exception is re-raised, otherwise
`time.sleep(delay * (2 ** attempt))` runs and the loop continues. -/
def retryGo (op : ℕ → Except ε α) (delay : ℚ) (max_retries : ℕ) :
    ℕ → ℕ → List ℚ → RetryTrace ε α
  | attempt, 0, sleeps => ⟨.exhausted, attempt, sleeps.reverse⟩
  | attempt, fuel + 1, sleeps =>
    match op attempt with
    | .ok a => ⟨.ok a, attempt + 1, sleeps.reverse⟩
    | .error e =>
      if attempt = max_retries - 1 then ⟨.err e, attempt + 1, sleeps.reverse⟩
      else retryGo op delay max_retries (attempt + 1) fuel (delay * 2 ^ attempt :: sleeps)

/-- `retry_on_failure(max_retries, delay)` (lines 38-53) applied to an
attempt-indexed fallible operation `op`. -/
def retry_on_failure (max_retries : ℕ) (delay : ℚ) (op : ℕ → Except ε α) : RetryTrace ε α :=
  retryGo op delay max_retries 0 max_retries []

/-- The five degraded-response categories of the `except` block of
`get_ai_response` (lines 185-195). -/
inductive FailureCategory where
  | rateLimit
  | invalidReq
  | auth
  | connection
  | generic
deriving DecidableEq, Repr

/-- Python `needle in hay` substring test. -/
def containsSub (needle hay : String) : Bool :=
  decide (needle.toList <:+: hay.toList)

/-- Python `str.lower()` (all messages involved are ASCII), written over the
character list. -/
def pyLower (s : String) : String :=
  ⟨s.data.map Char.toLower⟩

/-- Python `str.strip()`: drop whitespace from both ends, written over the
character list. -/
def pyStrip (s : String) : String :=
  ⟨((s.data.dropWhile Char.isWhitespace).reverse.dropWhile Char.isWhitespace).reverse⟩

/-- The `if/elif` chain of the `except` block (lines 186-195): the lowercased
exception text is matched against `"rate_limit"`, `"invalid"`,
`"authentication"`, `"connection"` in that order. -/
def classifyFailure (msg : String) : FailureCategory :=
  let m := pyLower msg
  if containsSub "rate_limit" m then .rateLimit
  else if containsSub "invalid" m then .invalidReq
  else if containsSub "authentication" m then .auth
  else if containsSub "connection" m then .connection
  else .generic

/-- The canned apology strings returned by the `except` block
(lines 186-195). -/
def apologyFor : FailureCategory → String
  | .rateLimit => "I\x27m experiencing high demand right now. Please try again in a moment."
  | .invalidReq => "I\x27m having trouble processing your request. Please try rephrasing it."
  | .auth => "I\x27m experiencing authentication issues. Please contact support."
  | .connection => "I\x27m having trouble connecting to my AI services. Please try again."
  | .generic => "I apologize, but I\x27m experiencing technical difficulties. Please try again."

/-- The message of the exception raised on rate-limiter rejection
(line 125). -/
def rateLimitExceededMsg : String := "Rate limit exceeded. Please try again later."

/-- The message of the `ValueError` raised on empty input (line 129). -/
def emptyInputMsg : String := "User input cannot be empty"

/-- The message of the `ValueError` raised when no API key is configured
(line 132). -/
def noApiKeyMsg : String := "OpenAI API key not configured"

/-- One role-tagged entry of the prompt sent to the model backend
(`messages` dicts with `"role"` and `"content"` keys). -/
structure ChatMsg where
  role : String
  content : String
deriving DecidableEq, Repr

/-- One entry of `conversation_history` as consumed by
`_prepare_conversation_context` (lines 102-105): a dict that may or may not
carry the `"user_message"` and `"ai_response"` keys. -/
structure HistMsg where
  user_message : Option String
  ai_response : Option String
deriving DecidableEq, Repr

/-- `self.system_prompts["default"]` (lines 68-71). -/
def defaultSystemPrompt : String :=
  "You are ZYEON, an advanced AI assistant with a futuristic personality. " ++
  "You are helpful, intelligent, and slightly mysterious. Keep responses concise but informative. " ++
  "You have access to real-time capabilities and can process voice commands. " ++
  "Always maintain a professional yet engaging tone. You can remember context from previous messages."

/-- `self.system_prompts["voice"]` (lines 73-76). -/
def voiceSystemPrompt : String :=
  "You are ZYEON, an advanced AI assistant optimized for voice interaction. " ++
  "Keep responses brief and conversational, suitable for text-to-speech. " ++
  "Avoid using special characters, markdown, or complex formatting. " ++
  "Speak naturally as if having a conversation."

/-- `self.system_prompts["technical"]` (lines 78-80). -/
def technicalSystemPrompt : String :=
  "You are ZYEON, a technical AI assistant specializing in programming and technology. " ++
  "Provide detailed, accurate technical information. Use code examples when helpful. " ++
  "Explain complex concepts clearly and offer practical solutions."

/-- `_get_system_prompt` (lines 89-91): `self.system_prompts.get(context_type,
self.system_prompts["default"])`. -/
def getSystemPrompt (context_type : String) : String :=
  if context_type = "default" then defaultSystemPrompt
  else if context_type = "voice" then voiceSystemPrompt
  else if context_type = "technical" then technicalSystemPrompt
  else defaultSystemPrompt

/-- `self.max_context_messages = 20` (line 84). -/
def max_context_messages : ℕ := 20

/-- `self.max_tokens_per_request = 1000` (line 85). -/
def max_tokens_per_request : ℕ := 1000

/-- The two prompt entries contributed by one history dict (lines 102-105):
a `"user"` and an `"assistant"` entry when both keys are present, nothing
otherwise. -/
def histMsgEntries (msg : HistMsg) : List ChatMsg :=
  match msg.user_message, msg.ai_response with
  | some u, some a => [⟨"user", u⟩, ⟨"assistant", a⟩]
  | _, _ => []

/-- `_prepare_conversation_context` (lines 93-107): system prompt first, then
`conversation_history[-self.max_context_messages:]` expanded in order into
user/assistant pairs.  Python's negative slice `l[-n:]` of a list of length
`len` is `drop (len - n)` (truncated subtraction). -/
def prepareConversationContext (conversation_history : List HistMsg)
    (context_type : String) : List ChatMsg :=
  let recent_history := conversation_history.drop
    (conversation_history.length - max_context_messages)
  ⟨"system", getSystemPrompt context_type⟩ :: recent_history.flatMap histMsgEntries

/-- The per-instance state of `ZyeonAIService` (lines 58-64) that the claims
depend on: the API key, the model name, and the mutable rate limiter
(constructed as `RateLimiter(max_calls=50, time_window=60)` at line 61). -/
structure ZyeonAIService where
  api_key : String
  model : String
  rate_limiter : RateLimiter
deriving DecidableEq, Repr

/-- `ZyeonAIService.__init__` (lines 58-64) with a fresh rate limiter. -/
def ZyeonAIService.init (api_key : String) (model : String) : ZyeonAIService :=
  ⟨api_key, model, ⟨50, 60, []⟩⟩

/-- What the model backend returns on success (`response.choices[0].message.
content` and `response.usage`). -/
structure UpstreamResp where
  content : String
  total_tokens : ℕ
  prompt_tokens : ℕ
  completion_tokens : ℕ
deriving DecidableEq, Repr

/-- The success metadata dict (lines 166-176).  The two wall-clock fields
(`response_time`, `timestamp`) and the numeric fields are stringified; their
exact rendering is irrelevant to every claim, which only inspect emptiness. -/
def successMetadata (svc : ZyeonAIService) (context_type : String)
    (temperature : ℚ) (max_tokens : ℕ) (resp : UpstreamResp)
    (response_time timestamp : String) : List (String × String) :=
  [("model", svc.model),
   ("context_type", context_type),
   ("temperature", toString temperature),
   ("max_tokens", toString max_tokens),
   ("response_time", response_time),
   ("tokens_used", toString resp.total_tokens),
   ("prompt_tokens", toString resp.prompt_tokens),
   ("completion_tokens", toString resp.completion_tokens),
   ("timestamp", timestamp)]

/-- Observable trace of one invocation of the (undecorated) body of
`get_ai_response`: the returned `(response_text, metadata)` pair, the rate
limiter state afterwards, how many times the upstream model was invoked, how
many times `record_call` ran, and the prompt actually sent upstream when an
upstream call happened. -/
structure AiCallTrace where
  response_text : String
  metadata : List (String × String)
  rate_limiter : RateLimiter
  upstream_calls : ℕ
  record_calls : ℕ
  sent_messages : Option (List ChatMsg)
deriving DecidableEq, Repr

/-- The degraded `(apology, empty dict)` result of the `except` block
(lines 182-195) when the body raised an exception with text `msg`. -/
def degradedTrace (msg : String) (rl : RateLimiter) (ups recs : ℕ)
    (sent : Option (List ChatMsg)) : AiCallTrace :=
  ⟨apologyFor (classifyFailure msg), [], rl, ups, recs, sent⟩

/-- The body of `get_ai_response` (lines 109-195), undecorated.  Control flow
of the `try` block in source order: rate-limit admission check (lines
124-125), input validation (lines 128-129), API-key check (lines 131-132),
context assembly plus the new user input (lines 135-139), `max_tokens`
defaulting (lines 142-143), `record_call` (line 146), the upstream call
(lines 151-158), and the success return (lines 163-180).  Any exception is
caught by the `except` block (lines 182-195), which returns an apology paired
with an empty dict; the body therefore never raises. -/
def getAiResponseBody (svc : ZyeonAIService) (now : ℚ)
    (upstream : List ChatMsg → Except String UpstreamResp)
    (user_input : String) (conversation_history : List HistMsg)
    (context_type : String) (temperature : ℚ) (max_tokens : Option ℕ) :
    AiCallTrace :=
  let (admitted, rl1) := svc.rate_limiter.can_make_call now
  if !admitted then
    degradedTrace rateLimitExceededMsg rl1 0 0 none
  else if pyStrip user_input = "" then
    degradedTrace emptyInputMsg rl1 0 0 none
  else if svc.api_key = "" then
    degradedTrace noApiKeyMsg rl1 0 0 none
  else
    let messages := prepareConversationContext conversation_history context_type
      ++ [⟨"user", pyStrip user_input⟩]
    let mt := max_tokens.getD max_tokens_per_request
    let rl2 := rl1.record_call now
    match upstream messages with
    | .ok resp =>
      ⟨pyStrip resp.content,
       successMetadata svc context_type temperature mt resp "" "",
       rl2, 1, 1, some messages⟩
    | .error e =>
      degradedTrace e rl2 1 1 (some messages)

/-- `get_ai_response` as it exists in the source: the body above wrapped in
`@retry_on_failure(max_retries=3, delay=1.0)` (line 109).  The wrapper passes
the attempt index to the upstream stub so that attempt-dependent stubs (fails
twice then succeeds) can be expressed; the body never raises, so the wrapper
always receives a normal return. -/
def get_ai_response (svc : ZyeonAIService) (now : ℚ)
    (upstreamAt : ℕ → List ChatMsg → Except String UpstreamResp)
    (user_input : String) (conversation_history : List HistMsg)
    (context_type : String) (temperature : ℚ) (max_tokens : Option ℕ) :
    RetryTrace String AiCallTrace :=
  retry_on_failure 3 1
    (fun attempt => Except.ok
      (getAiResponseBody svc now (upstreamAt attempt) user_input
        conversation_history context_type temperature max_tokens))

/-- Sequential driver: one `get_ai_response` body per timestamp in `times`,
threading the rate limiter through the service state, collecting the traces
in call order. -/
def runSequential (svc : ZyeonAIService)
    (upstream : List ChatMsg → Except String UpstreamResp)
    (user_input : String) (times : List ℚ) : List AiCallTrace × ZyeonAIService :=
  match times with
  | [] => ([], svc)
  | t :: rest =>
    let tr := getAiResponseBody svc t upstream user_input [] "default" (7 / 10) none
    let (trs, svc2) := runSequential { svc with rate_limiter := tr.rate_limiter }
      upstream user_input rest
    (tr :: trs, svc2)

/-! ## `models/conversation.py` — `ConversationModel` -/

/-- One document of the `conversations` collection as inserted by
`create_conversation` (lines 59-70).  Timestamps (`datetime.now`) are
rationals; their ISO-string serialization performed by
`get_conversation_history` (lines 104-111) is identity on the model's level
and is not re-modelled. -/
structure ConvDoc where
  conversation_id : String
  user_id : String
  session_id : Option String
  timestamp : ℚ
  user_message : String
  ai_response : String
  message_type : String
  metadata : List (String × String)
  created_at : ℚ
  updated_at : ℚ
deriving DecidableEq, Repr

/-- Python `int()` applied to a float: truncation toward zero. -/
def pyIntTrunc (q : ℚ) : ℤ :=
  if 0 ≤ q then ⌊q⌋ else ⌈q⌉

/-- Line 60: `conversation_id or f"conv_\x7bint(datetime.now().timestamp())\x7d"`.
Python `or` takes the right operand when the left is falsy (`None` or the
empty string). -/
def genConversationId (conversation_id : Option String) (now : ℚ) : String :=
  let generated := "conv_" ++ toString (pyIntTrunc now)
  match conversation_id with
  | none => generated
  | some cid => if cid = "" then generated else cid

/-- `create_conversation` (lines 49-78): the document inserted into the
`conversations` collection, with `conversation_id` generated when absent. -/
def create_conversation (user_message ai_response : String) (user_id : String)
    (conversation_id : Option String) (session_id : Option String)
    (message_type : String) (metadata : List (String × String)) (now : ℚ) :
    ConvDoc :=
  ⟨genConversationId conversation_id now, user_id, session_id, now,
   user_message, ai_response, message_type, metadata, now, now⟩

/-- The Mongo query built at lines 88-95: a document matches iff it agrees
with every filter that was actually supplied (Python skips falsy filters). -/
def matchesQuery (user_id conversation_id session_id : Option String)
    (d : ConvDoc) : Bool :=
  (match user_id with | none => true | some u => d.user_id == u) &&
  (match conversation_id with | none => true | some c => d.conversation_id == c) &&
  (match session_id with | none => true | some s => d.session_id == some s)

/-- Newest-first order on conversation documents:
`.sort("timestamp", DESCENDING)` (line 99). -/
def newestFirst (a b : ConvDoc) : Prop := b.timestamp ≤ a.timestamp

instance : DecidableRel newestFirst := fun a b =>
  inferInstanceAs (Decidable (b.timestamp ≤ a.timestamp))

instance : IsTotal ConvDoc newestFirst := ⟨fun a b => le_total b.timestamp a.timestamp⟩

instance : IsTrans ConvDoc newestFirst := ⟨fun _ _ _ h h2 => le_trans h2 h⟩

/-- Mongo's `.limit(n)`: `n = 0` means no limit, otherwise at most `n`
documents. -/
def mongoLimit (n : ℕ) (l : List ConvDoc) : List ConvDoc :=
  if n = 0 then l else l.take n

/-- `get_conversation_history` (lines 80-117): build the query from the
supplied filters, find, sort newest-first, skip `offset`, limit `limit`; the
`except` block (lines 115-117) turns any storage failure — including an
unavailable store — into the empty list. -/
def get_conversation_history (store : Except String (List ConvDoc))
    (user_id conversation_id session_id : Option String)
    (limit offset : ℕ) : List ConvDoc :=
  match store with
  | .error _ => []
  | .ok docs =>
    let found := docs.filter (matchesQuery user_id conversation_id session_id)
    mongoLimit limit ((found.insertionSort newestFirst).drop offset)

/-- One document of the `sessions` collection as inserted by `create_session`
(lines 223-230); `ended_at` is absent until `end_session` sets it. -/
structure SessionDoc where
  session_id : String
  user_id : String
  created_at : ℚ
  updated_at : ℚ
  is_active : Bool
  ended_at : Option ℚ
deriving DecidableEq, Repr

/-- `create_session` (lines 220-238): `insert_one` of a fresh active session.
The `sessions` collection has a unique index on `session_id` (line 41), so
inserting an existing id raises a duplicate-key error, which `create_session`
re-raises (line 238) leaving the collection unchanged. -/
def create_session (store : List SessionDoc) (user_id session_id : String)
    (now : ℚ) : Except String (List SessionDoc) :=
  if store.any (fun s => s.session_id == session_id) then
    Except.error "duplicate key error"
  else
    Except.ok (store ++ [⟨session_id, user_id, now, now, true, none⟩])

/-- Mongo `update_one`: apply `f` to the first document matching `p`. -/
def updateFirst (p : α → Bool) (f : α → α) : List α → List α
  | [] => []
  | x :: xs => if p x then f x :: xs else x :: updateFirst p f xs

/-- `end_session` (lines 240-255): `update_one` setting `is_active = False`
and refreshing `ended_at` / `updated_at` to the current time on the (unique)
session with the given id; matching nothing is not an error. -/
def end_session (store : List SessionDoc) (session_id : String) (now : ℚ) :
    List SessionDoc :=
  updateFirst (fun s => s.session_id == session_id)
    (fun s => { s with is_active := false, ended_at := some now, updated_at := now })
    store

/-- The operations of `ConversationModel` that touch the `sessions`
collection. -/
inductive SessionOp where
  | create (user_id session_id : String) (now : ℚ)
  | close (session_id : String) (now : ℚ)
deriving DecidableEq, Repr

/-- Effect of one session operation on the collection; a failing
`create_session` propagates its exception to the caller but leaves the
collection unchanged. -/
def applySessionOp (store : List SessionDoc) : SessionOp → List SessionDoc
  | .create u sid t =>
    match create_session store u sid t with
    | .ok store2 => store2
    | .error _ => store
  | .close sid t => end_session store sid t

/-- A whole sequence of session operations, in order. -/
def applySessionOps (store : List SessionDoc) (ops : List SessionOp) :
    List SessionDoc :=
  ops.foldl applySessionOp store

/-- Lookup of a session document by id (unique index). -/
def findSession (store : List SessionDoc) (session_id : String) :
    Option SessionDoc :=
  store.find? (fun s => s.session_id == session_id)

/-! ## `services/voice_service.py` — `VoiceService` -/

/-- The `VoiceService` state the claims depend on (`__init__`, lines 19-26):
whether TTS initialisation produced an engine, whether speech-recognition
initialisation produced a recognizer and a microphone (`None` on failure,
modelled as `false`), and the two activity flags. -/
structure VoiceService where
  tts_engine : Bool
  recognizer : Bool
  microphone : Bool
  is_listening : Bool
  is_speaking : Bool
deriving DecidableEq, Repr

/-- `VoiceService.__init__` (lines 19-49): both flags start `False`;
recognizer and microphone are set together by
`_initialize_speech_recognition` (lines 79-102), both `None` when
initialisation fails. -/
def VoiceService.initState (ttsOk captureOk : Bool) : VoiceService :=
  ⟨ttsOk, captureOk, captureOk, false, false⟩

/-- `start_listening` (lines 139-163): returns `False` at once when
`self.recognizer` or `self.microphone` is `None`; returns `True` when already
listening; otherwise sets `is_listening = True`, spawns the listen loop and
returns `True`. -/
def VoiceService.start_listening (v : VoiceService) : Bool × VoiceService :=
  if !v.recognizer || !v.microphone then (false, v)
  else if v.is_listening then (true, v)
  else (true, { v with is_listening := true })

/-- `stop_listening` (lines 165-181): sets `is_listening = False`, joins the
listener thread (bounded), fires the callback, returns `True`. -/
def VoiceService.stop_listening (v : VoiceService) : Bool × VoiceService :=
  (true, { v with is_listening := false })

/-! ## Helper lemmas -/

/-- Folding `record_call` over a list of timestamps appends them all to the
call log, in order. -/
theorem foldl_record_call (rl : RateLimiter) (ts : List ℚ) :
    (ts.foldl RateLimiter.record_call rl).calls = rl.calls ++ ts := by
  induction ts generalizing rl with
  | nil => simp
  | cons t rest ih =>
    simp only [List.foldl_cons, ih, RateLimiter.record_call]
    simp

/-- Folding `record_call` leaves the configured ceiling unchanged. -/
theorem foldl_record_call_max (rl : RateLimiter) (ts : List ℚ) :
    (ts.foldl RateLimiter.record_call rl).max_calls = rl.max_calls := by
  induction ts generalizing rl with
  | nil => rfl
  | cons t rest ih => simpa [RateLimiter.record_call] using ih (rl.record_call t)

/-- Folding `record_call` leaves the configured window unchanged. -/
theorem foldl_record_call_window (rl : RateLimiter) (ts : List ℚ) :
    (ts.foldl RateLimiter.record_call rl).time_window = rl.time_window := by
  induction ts generalizing rl with
  | nil => rfl
  | cons t rest ih => simpa [RateLimiter.record_call] using ih (rl.record_call t)

end ZyeonAI

namespace ZyeonAI

/-! ## Claim theorems -/

/-- C4.  For every sequence of `record_call` invocations (timestamps `ts`
applied to a fresh limiter) and every check time `now`, `can_make_call`
returns `false` iff at least `max_calls` of the recorded stamps fall strictly
within the trailing `time_window` (`now - t < time_window`); moreover a
recorded stamp at least `time_window` old is not among the stamps counted. -/
theorem can_make_call_false_iff (max_calls : ℕ) (time_window : ℚ)
    (ts : List ℚ) (now : ℚ) :
    ((((ts.foldl RateLimiter.record_call ⟨max_calls, time_window, []⟩).can_make_call now).1 = false) ↔
      max_calls ≤ (ts.filter (fun t => decide (now - t < time_window))).length) ∧
    (∀ t, time_window ≤ now - t →
      t ∉ ts.filter (fun t => decide (now - t < time_window))) := by
  constructor
  · simp only [RateLimiter.can_make_call, foldl_record_call, List.nil_append,
      foldl_record_call_max, foldl_record_call_window]
    rw [decide_eq_false_iff_not, not_lt]
  · intro t ht hmem
    have := (List.mem_filter.mp hmem).2
    simp only [decide_eq_true_eq] at this
    exact absurd this (not_lt.mpr ht)

/-- C4 witness: concrete instantiation — with `max_calls = 1`,
`time_window = 60`, record stamps `0` and `30`, check at `now = 100`: the
stamp `0` (100 seconds old) is not counted. -/
theorem can_make_call_false_iff_witness :
    (0 : ℚ) ∉ ([0, 30] : List ℚ).filter (fun t => decide ((100 : ℚ) - t < 60)) :=
  (can_make_call_false_iff 1 60 [0, 30] 100).2 0 (by norm_num)

section RatKernelEval

attribute [local semireducible] Rat.sub Rat.add Rat.mul Rat.inv Rat.ofScientific

/-- C6 counterexample: `can_make_call` does mutate the limiter — with one
recorded call at time `0` and a check at `now = 100` (window 60), the
recorded-call log changes from `[0]` to `[]`. -/
theorem can_make_call_mutates :
    ((⟨50, 60, [0]⟩ : RateLimiter).can_make_call 100).2 ≠ (⟨50, 60, [0]⟩ : RateLimiter) := by
  decide

end RatKernelEval

/-- C6 (amended).  `can_make_call` prunes the recorded-call log, keeping
exactly the stamps still strictly within the trailing window (and the
configuration fields unchanged); in particular, when every recorded call is
still within the window, the limiter state is left completely unchanged. -/
theorem can_make_call_prunes (rl : RateLimiter) (now : ℚ) :
    ((rl.can_make_call now).2 =
      { rl with calls := rl.calls.filter (fun t => decide (now - t < rl.time_window)) }) ∧
    ((∀ t ∈ rl.calls, now - t < rl.time_window) → (rl.can_make_call now).2 = rl) := by
  refine ⟨rfl, fun h => ?_⟩
  simp only [RateLimiter.can_make_call]
  have : rl.calls.filter (fun t => decide (now - t < rl.time_window)) = rl.calls :=
    List.filter_eq_self.mpr (fun t ht => by simpa using h t ht)
  simp [this]

section RatKernelEval2

attribute [local semireducible] Rat.sub Rat.add Rat.mul Rat.inv Rat.ofScientific

/-- C6 witness: with both recorded calls strictly inside the window the
limiter is unchanged by the check. -/
theorem can_make_call_prunes_witness :
    ((⟨50, 60, [5, 9]⟩ : RateLimiter).can_make_call 10).2 = (⟨50, 60, [5, 9]⟩ : RateLimiter) :=
  (can_make_call_prunes ⟨50, 60, [5, 9]⟩ 10).2 (by decide)

/-- C2 counterexample: a failure caused by rate-limit rejection does NOT
yield the rate-limit category's apology.  With the limiter full (50 recorded
calls inside the window), `get_ai_response` returns the *generic* apology,
because the internal rejection message "Rate limit exceeded. Please try
again later." does not contain the matched substring `"rate_limit"`. -/
theorem rate_limit_rejection_yields_generic_apology :
    ((getAiResponseBody ⟨"test-key", "gpt-3.5-turbo", ⟨50, 60, List.replicate 50 0⟩⟩ 0
        (fun _ => Except.ok ⟨"Hello", 3, 2, 1⟩) "Hello" [] "default" (7 / 10) none).response_text
      = apologyFor FailureCategory.generic) ∧
    apologyFor FailureCategory.generic ≠ apologyFor FailureCategory.rateLimit := by
  decide

end RatKernelEval2

/-- C2 (amended).  `get_ai_response` never raises past its own boundary: it
always returns a `(text, metadata)` pair, which is either the upstream
success (trimmed content, non-empty metadata) or a degraded pair — the
apology selected by matching the failure message against the categories,
paired with empty metadata.  However a failure caused by rate-limit
rejection yields the *generic* category's apology (with empty metadata),
because the rejection message does not contain the substring `"rate_limit"`
that the rate-limit category matches. -/
theorem get_ai_response_degrades_never_raises (svc : ZyeonAIService) (now : ℚ)
    (upstream : List ChatMsg → Except String UpstreamResp)
    (user_input : String) (conversation_history : List HistMsg)
    (context_type : String) (temperature : ℚ) (max_tokens : Option ℕ) :
    ((∃ resp msgs, upstream msgs = Except.ok resp ∧
        (getAiResponseBody svc now upstream user_input conversation_history
          context_type temperature max_tokens).response_text = pyStrip resp.content ∧
        (getAiResponseBody svc now upstream user_input conversation_history
          context_type temperature max_tokens).metadata ≠ []) ∨
     (∃ msg,
        (getAiResponseBody svc now upstream user_input conversation_history
          context_type temperature max_tokens).response_text = apologyFor (classifyFailure msg) ∧
        (getAiResponseBody svc now upstream user_input conversation_history
          context_type temperature max_tokens).metadata = [])) ∧
    ((svc.rate_limiter.can_make_call now).1 = false →
      (getAiResponseBody svc now upstream user_input conversation_history
        context_type temperature max_tokens).response_text = apologyFor FailureCategory.generic ∧
      (getAiResponseBody svc now upstream user_input conversation_history
        context_type temperature max_tokens).metadata = []) := by
  have hgen : classifyFailure rateLimitExceededMsg = FailureCategory.generic := by decide
  rcases hp : svc.rate_limiter.can_make_call now with ⟨admitted, rl1⟩
  simp only [getAiResponseBody, hp]
  cases admitted with
  | false =>
    refine ⟨Or.inr ⟨rateLimitExceededMsg, ?_, ?_⟩, fun _ => ?_⟩ <;>
      simp [degradedTrace, hgen]
  | true =>
    constructor
    · by_cases h1 : pyStrip user_input = ""
      · exact Or.inr ⟨emptyInputMsg, by simp [h1, degradedTrace], by simp [h1, degradedTrace]⟩
      · by_cases h2 : svc.api_key = ""
        · exact Or.inr ⟨noApiKeyMsg, by simp [h1, h2, degradedTrace],
            by simp [h1, h2, degradedTrace]⟩
        · cases hu : upstream (prepareConversationContext conversation_history context_type
            ++ [⟨"user", pyStrip user_input⟩]) with
          | ok resp =>
            refine Or.inl ⟨resp, _, hu, ?_, ?_⟩ <;> simp [h1, h2, hu, successMetadata]
          | error e =>
            refine Or.inr ⟨e, ?_, ?_⟩ <;> simp [h1, h2, hu, degradedTrace]
    · intro hfalse
      simp at hfalse

section RatKernelEval3

attribute [local semireducible] Rat.sub Rat.add Rat.mul Rat.inv Rat.ofScientific

/-- C2 witness: with the limiter full, the degraded result is the generic
apology paired with empty metadata. -/
theorem get_ai_response_degrades_witness :
    (getAiResponseBody ⟨"test-key", "gpt-3.5-turbo", ⟨50, 60, List.replicate 50 0⟩⟩ 0
        (fun _ => Except.ok ⟨"Hello", 3, 2, 1⟩) "Hello" [] "default" (7 / 10) none).response_text
      = apologyFor FailureCategory.generic ∧
    (getAiResponseBody ⟨"test-key", "gpt-3.5-turbo", ⟨50, 60, List.replicate 50 0⟩⟩ 0
        (fun _ => Except.ok ⟨"Hello", 3, 2, 1⟩) "Hello" [] "default" (7 / 10) none).metadata = [] :=
  (get_ai_response_degrades_never_raises
    ⟨"test-key", "gpt-3.5-turbo", ⟨50, 60, List.replicate 50 0⟩⟩ 0
    (fun _ => Except.ok ⟨"Hello", 3, 2, 1⟩) "Hello" [] "default" (7 / 10) none).2 (by decide)

end RatKernelEval3

/-- C1: the retry policy around the upstream call is dead code.  The body of
`get_ai_response` catches every exception itself and converts it to a
degraded return, so the `@retry_on_failure(max_retries=3, delay=1.0)`
wrapper never observes a failure.  With an upstream stub that fails twice
and then succeeds, the wrapped `get_ai_response` makes exactly ONE attempt,
sleeps not at all, and returns the degraded connection apology with empty
metadata — not the successful result after 3 attempts with backoff delays
1s and 2s that the claim (and the retry wrapper's own purpose) prescribes. -/
theorem retry_wrapper_never_fires :
    (get_ai_response (ZyeonAIService.init "test-key" "gpt-3.5-turbo") 0
        (fun attempt _ => if attempt < 2 then Except.error "Connection error"
          else Except.ok ⟨"Hello there", 10, 5, 5⟩)
        "Hi" [] "default" (7 / 10) none).attempts = 1 ∧
    (get_ai_response (ZyeonAIService.init "test-key" "gpt-3.5-turbo") 0
        (fun attempt _ => if attempt < 2 then Except.error "Connection error"
          else Except.ok ⟨"Hello there", 10, 5, 5⟩)
        "Hi" [] "default" (7 / 10) none).sleeps = [] ∧
    (get_ai_response (ZyeonAIService.init "test-key" "gpt-3.5-turbo") 0
        (fun attempt _ => if attempt < 2 then Except.error "Connection error"
          else Except.ok ⟨"Hello there", 10, 5, 5⟩)
        "Hi" [] "default" (7 / 10) none).outcome =
      RetryOutcome.ok (getAiResponseBody (ZyeonAIService.init "test-key" "gpt-3.5-turbo") 0
        (fun _ => Except.error "Connection error") "Hi" [] "default" (7 / 10) none) ∧
    (getAiResponseBody (ZyeonAIService.init "test-key" "gpt-3.5-turbo") 0
        (fun _ => Except.error "Connection error") "Hi" [] "default" (7 / 10) none).response_text =
      apologyFor FailureCategory.connection ∧
    (getAiResponseBody (ZyeonAIService.init "test-key" "gpt-3.5-turbo") 0
        (fun _ => Except.error "Connection error") "Hi" [] "default" (7 / 10) none).metadata = [] := by
  exact ⟨rfl, rfl, rfl, by decide, rfl⟩

section RatKernelEval4

attribute [local semireducible] Rat.sub Rat.add Rat.mul Rat.inv Rat.ofScientific

/-- The `retry_on_failure` combinator *in isolation* does behave exactly as
the specification describes — fails-twice-then-succeeds yields the success
after 3 attempts with sleeps 1s then 2s, and an always-failing operation
re-raises the last exception after 3 attempts.  This supports reading C1's
divergence as a slip in `get_ai_response` (the catch-all `except` swallowing
the exception before the wrapper can retry) rather than in the wrapper. -/
theorem retry_on_failure_alone_behaves :
    (retry_on_failure 3 1 (fun attempt => if attempt < 2 then Except.error "boom"
        else Except.ok attempt) : RetryTrace String ℕ) =
      ⟨RetryOutcome.ok 2, 3, [1, 2]⟩ ∧
    (retry_on_failure 3 1 (fun _ => (Except.error "boom" : Except String ℕ))) =
      ⟨RetryOutcome.err "boom", 3, [1, 2]⟩ := by
  constructor <;> decide

end RatKernelEval4

/-- On a history of complete turns (both keys present), the guarded
pair-expansion of `_prepare_conversation_context` is the unconditional
user/assistant pair expansion. -/
theorem flatMap_histMsgEntries_of_full (l : List HistMsg)
    (h : ∀ m ∈ l, m.user_message.isSome ∧ m.ai_response.isSome) :
    l.flatMap histMsgEntries =
      l.flatMap (fun m => [⟨"user", m.user_message.getD ""⟩,
        ⟨"assistant", m.ai_response.getD ""⟩]) := by
  induction l with
  | nil => rfl
  | cons a rest ih =>
    obtain ⟨hu, ha⟩ := h a (List.mem_cons_self a rest)
    obtain ⟨u, hu⟩ := Option.isSome_iff_exists.mp hu
    obtain ⟨v, hv⟩ := Option.isSome_iff_exists.mp ha
    simp only [List.flatMap_cons, histMsgEntries, hu, hv,
      ih (fun m hm => h m (List.mem_cons_of_mem a hm))]
    simp [hu, hv]

/-- C3.  For every conversation history longer than `max_context_messages`
(= 20) whose entries are complete turns, the prompt sent to the model is
exactly: the system prompt for the context type, then the most recent
`max_context_messages` turns expanded in chronological order into
user/assistant pairs, then the new (stripped) user input — and the window is
exactly the final `max_context_messages`-turn suffix of the history, never
more. -/
theorem context_window_bound (svc : ZyeonAIService) (now : ℚ)
    (upstream : List ChatMsg → Except String UpstreamResp)
    (user_input : String) (conversation_history : List HistMsg)
    (context_type : String) (temperature : ℚ) (max_tokens : Option ℕ)
    (hlong : max_context_messages < conversation_history.length)
    (hfull : ∀ m ∈ conversation_history,
      m.user_message.isSome ∧ m.ai_response.isSome) :
    ∀ msgs, (getAiResponseBody svc now upstream user_input conversation_history
        context_type temperature max_tokens).sent_messages = some msgs →
      msgs = ⟨"system", getSystemPrompt context_type⟩ ::
          ((conversation_history.drop
              (conversation_history.length - max_context_messages)).flatMap
            (fun m => [⟨"user", m.user_message.getD ""⟩,
              ⟨"assistant", m.ai_response.getD ""⟩]))
          ++ [⟨"user", pyStrip user_input⟩] ∧
      (conversation_history.drop
        (conversation_history.length - max_context_messages)).length =
          max_context_messages ∧
      conversation_history =
        conversation_history.take (conversation_history.length - max_context_messages) ++
        conversation_history.drop (conversation_history.length - max_context_messages) ∧
      max_context_messages = 20 := by
  have hsent : ∀ msgs, (getAiResponseBody svc now upstream user_input conversation_history
      context_type temperature max_tokens).sent_messages = some msgs →
      msgs = prepareConversationContext conversation_history context_type ++
        [⟨"user", pyStrip user_input⟩] := by
    intro msgs hm
    rcases hp : svc.rate_limiter.can_make_call now with ⟨admitted, rl1⟩
    simp only [getAiResponseBody, hp] at hm
    cases admitted with
    | false => simp [degradedTrace] at hm
    | true =>
      by_cases h1 : pyStrip user_input = "" <;>
        by_cases h2 : svc.api_key = "" <;>
          simp [h1, h2, degradedTrace] at hm <;>
            (cases hu : upstream (prepareConversationContext conversation_history context_type
                ++ [⟨"user", pyStrip user_input⟩]) <;>
              (simp [hu, degradedTrace] at hm; exact hm.symm))
  intro msgs hm
  have hmsgs := hsent msgs hm
  have hdroplen : (conversation_history.drop
      (conversation_history.length - max_context_messages)).length =
      max_context_messages := by
    rw [List.length_drop]
    omega
  refine ⟨?_, hdroplen, (List.take_append_drop _ _).symm, rfl⟩
  rw [hmsgs]
  simp only [prepareConversationContext,
    flatMap_histMsgEntries_of_full _
      (fun m hm2 => hfull m (List.mem_of_mem_drop hm2))]

/-- The 30-turn history of C3's concrete instantiation. -/
def hist30 : List HistMsg :=
  (List.range 30).map (fun i => ⟨some ("u" ++ toString i), some ("a" ++ toString i)⟩)

/-- C3 witness: with a 30-turn history the assembled window is exactly the
most recent 20 turns. -/
theorem context_window_bound_witness :
    max_context_messages < hist30.length ∧
    (hist30.drop (hist30.length - max_context_messages)).length = max_context_messages :=
  ⟨by decide,
    ((context_window_bound (ZyeonAIService.init "test-key" "gpt-3.5-turbo") 0
      (fun _ => Except.ok ⟨"Hello", 3, 2, 1⟩) "Hi" hist30 "default" (7 / 10) none
      (by decide) (by decide)) _ rfl).2.1⟩

section RatKernelEval5

attribute [local semireducible] Rat.sub Rat.add Rat.mul Rat.inv Rat.ofScientific

/-- C5.  `get_ai_response` checks the rate limiter before everything else:
the wrapped call always makes exactly one attempt (so a rejection is never
retried); when admission is rejected, the upstream model is never invoked,
`record_call` never runs, and the degraded result produced from the
rate-limit rejection exception is returned immediately; when admission succeeds and the input and
API key are valid, `record_call` runs exactly once for the single upstream
invocation.  Concretely, 61 back-to-back calls within one 60-second window
against the service's `max_calls = 50` limiter invoke the upstream exactly on
calls 1–50 and reject calls 51–61 at the admission check, recording no call
for them. -/
theorem admission_before_upstream (svc : ZyeonAIService) (now : ℚ)
    (upstream : List ChatMsg → Except String UpstreamResp)
    (upstreamAt : ℕ → List ChatMsg → Except String UpstreamResp)
    (user_input : String) (conversation_history : List HistMsg)
    (context_type : String) (temperature : ℚ) (max_tokens : Option ℕ) :
    ((get_ai_response svc now upstreamAt user_input conversation_history
      context_type temperature max_tokens).attempts = 1) ∧
    ((svc.rate_limiter.can_make_call now).1 = false →
      (getAiResponseBody svc now upstream user_input conversation_history
        context_type temperature max_tokens).upstream_calls = 0 ∧
      (getAiResponseBody svc now upstream user_input conversation_history
        context_type temperature max_tokens).record_calls = 0 ∧
      (getAiResponseBody svc now upstream user_input conversation_history
        context_type temperature max_tokens).response_text =
          apologyFor (classifyFailure rateLimitExceededMsg)) ∧
    ((svc.rate_limiter.can_make_call now).1 = true → pyStrip user_input ≠ "" →
      svc.api_key ≠ "" →
      (getAiResponseBody svc now upstream user_input conversation_history
        context_type temperature max_tokens).record_calls = 1 ∧
      (getAiResponseBody svc now upstream user_input conversation_history
        context_type temperature max_tokens).upstream_calls = 1) ∧
    ((runSequential (ZyeonAIService.init "test-key" "gpt-3.5-turbo")
        (fun _ => Except.ok ⟨"Hello", 3, 2, 1⟩) "Hello"
        (List.replicate 61 0)).1.map (fun tr => tr.upstream_calls) =
      List.replicate 50 1 ++ List.replicate 11 0) ∧
    ((runSequential (ZyeonAIService.init "test-key" "gpt-3.5-turbo")
        (fun _ => Except.ok ⟨"Hello", 3, 2, 1⟩) "Hello"
        (List.replicate 61 0)).1.map (fun tr => tr.record_calls) =
      List.replicate 50 1 ++ List.replicate 11 0) := by
  rcases hp : svc.rate_limiter.can_make_call now with ⟨admitted, rl1⟩
  refine ⟨rfl, fun hf => ?_, fun ht h1 h2 => ?_, by decide, by decide⟩
  · simp only [Prod.fst] at hf
    subst hf
    simp [getAiResponseBody, hp, degradedTrace]
  · simp only [Prod.fst] at ht
    subst ht
    simp only [getAiResponseBody, hp]
    cases hu : upstream (prepareConversationContext conversation_history context_type
        ++ [⟨"user", pyStrip user_input⟩]) <;>
      simp [h1, h2, hu, degradedTrace]

/-- C5 witness: concrete instantiations of both implications — a full
limiter rejects with no upstream call and no `record_call`; a fresh limiter
admits and records exactly once. -/
theorem admission_before_upstream_witness :
    ((getAiResponseBody ⟨"test-key", "gpt-3.5-turbo", ⟨50, 60, List.replicate 50 0⟩⟩ 0
        (fun _ => Except.ok ⟨"Hello", 3, 2, 1⟩) "Hello" [] "default" (7 / 10) none).upstream_calls = 0 ∧
     (getAiResponseBody ⟨"test-key", "gpt-3.5-turbo", ⟨50, 60, List.replicate 50 0⟩⟩ 0
        (fun _ => Except.ok ⟨"Hello", 3, 2, 1⟩) "Hello" [] "default" (7 / 10) none).record_calls = 0 ∧
     (getAiResponseBody ⟨"test-key", "gpt-3.5-turbo", ⟨50, 60, List.replicate 50 0⟩⟩ 0
        (fun _ => Except.ok ⟨"Hello", 3, 2, 1⟩) "Hello" [] "default" (7 / 10) none).response_text =
       apologyFor (classifyFailure rateLimitExceededMsg)) ∧
    ((getAiResponseBody (ZyeonAIService.init "test-key" "gpt-3.5-turbo") 0
        (fun _ => Except.ok ⟨"Hello", 3, 2, 1⟩) "Hello" [] "default" (7 / 10) none).record_calls = 1 ∧
     (getAiResponseBody (ZyeonAIService.init "test-key" "gpt-3.5-turbo") 0
        (fun _ => Except.ok ⟨"Hello", 3, 2, 1⟩) "Hello" [] "default" (7 / 10) none).upstream_calls = 1) :=
  ⟨(admission_before_upstream ⟨"test-key", "gpt-3.5-turbo", ⟨50, 60, List.replicate 50 0⟩⟩ 0
      (fun _ => Except.ok ⟨"Hello", 3, 2, 1⟩) (fun _ _ => Except.ok ⟨"Hello", 3, 2, 1⟩)
      "Hello" [] "default" (7 / 10) none).2.1 (by decide),
   (admission_before_upstream (ZyeonAIService.init "test-key" "gpt-3.5-turbo") 0
      (fun _ => Except.ok ⟨"Hello", 3, 2, 1⟩) (fun _ _ => Except.ok ⟨"Hello", 3, 2, 1⟩)
      "Hello" [] "default" (7 / 10) none).2.2.1
        (by decide) (by decide) (by decide)⟩

end RatKernelEval5

/-- `end_session` acts on the looked-up session: looking up the session id
after `end_session` of the same id returns the previous document with
`is_active` cleared and `ended_at` / `updated_at` refreshed. -/
theorem findSession_end_session_same (store : List SessionDoc) (sid : String) (t : ℚ) :
    findSession (end_session store sid t) sid =
      (findSession store sid).map
        (fun s => { s with is_active := false, ended_at := some t, updated_at := t }) := by
  induction store with
  | nil => rfl
  | cons x xs ih =>
    cases hx : x.session_id == sid with
    | true => simp [end_session, updateFirst, findSession, List.find?, hx]
    | false =>
      simp only [end_session, updateFirst, findSession, List.find?, hx] at ih ⊢
      simpa using ih

/-- `end_session` on a different session id does not affect the lookup. -/
theorem findSession_end_session_other (store : List SessionDoc)
    (sid2 sid : String) (t : ℚ) (h : sid2 ≠ sid) :
    findSession (end_session store sid2 t) sid = findSession store sid := by
  induction store with
  | nil => rfl
  | cons x xs ih =>
    cases hx : x.session_id == sid2 with
    | true =>
      have hxid : x.session_id = sid2 := by simpa using hx
      have hne : (sid2 == sid) = false := beq_eq_false_iff_ne.mpr h
      simp [end_session, updateFirst, findSession, List.find?, hx, hxid, h, hne]
    | false =>
      cases hx2 : x.session_id == sid with
      | true => simp [end_session, updateFirst, findSession, List.find?, hx, hx2]
      | false =>
        simp only [end_session, updateFirst, findSession, List.find?, hx, hx2] at ih ⊢
        simpa using ih

/-- One session operation preserves "the session with this id exists and is
closed": creating over an existing id fails without modifying the
collection, and `end_session` only ever clears `is_active`. -/
theorem closed_preserved_op (store : List SessionDoc) (sid : String)
    (op : SessionOp)
    (h : ∃ s, findSession store sid = some s ∧ s.is_active = false) :
    ∃ s2, findSession (applySessionOp store op) sid = some s2 ∧
      s2.is_active = false := by
  obtain ⟨s, hs, hact⟩ := h
  cases op with
  | create u sid2 t =>
    simp only [applySessionOp, create_session]
    by_cases hdup : store.any (fun s => s.session_id == sid2) = true
    · simp only [hdup, if_true]
      exact ⟨s, hs, hact⟩
    · have hne : ¬(sid = sid2) := by
        intro he
        exact hdup (List.any_eq_true.mpr
          ⟨s, List.mem_of_find?_eq_some hs, by simpa [he.symm] using List.find?_some hs⟩)
      rw [if_neg hdup]
      refine ⟨s, ?_, hact⟩
      rw [findSession, List.find?_append]
      rw [findSession] at hs
      simp [hs]
  | close sid2 t =>
    by_cases he : sid2 = sid
    · subst he
      refine ⟨{ s with is_active := false, ended_at := some t, updated_at := t }, ?_, rfl⟩
      rw [applySessionOp, findSession_end_session_same, hs]
      rfl
    · rw [applySessionOp, findSession_end_session_other store sid2 sid t he]
      exact ⟨s, hs, hact⟩

/-- C7 counterexample: `end_session` on an already-ended session is not a
no-op — the second call refreshes `ended_at` (1 becomes 2) and
`updated_at`, so the stored document changes. -/
theorem end_session_second_call_changes_doc :
    end_session (end_session [⟨"s1", "u1", 0, 0, true, none⟩] "s1" 1) "s1" 2 ≠
      end_session [⟨"s1", "u1", 0, 0, true, none⟩] "s1" 1 := by
  decide

/-- C7 (amended).  `end_session` on an already-ended session raises no error
and keeps the session closed, but it is not a pure no-op: the second call
refreshes `ended_at` and `updated_at` to its own time.  Moreover, once a
session is closed it never becomes active again under any sequence of
session operations: `create_session` on an existing id fails (unique index)
without modifying the collection, and `end_session` only clears
`is_active`. -/
theorem end_session_idempotent_closed_forever (store : List SessionDoc)
    (sid : String) (t1 t2 : ℚ) :
    (∀ s, findSession store sid = some s →
      findSession (end_session (end_session store sid t1) sid t2) sid =
        some { s with is_active := false, ended_at := some t2, updated_at := t2 }) ∧
    (∀ ops : List SessionOp,
      (∃ s, findSession store sid = some s ∧ s.is_active = false) →
      ∃ s2, findSession (applySessionOps store ops) sid = some s2 ∧
        s2.is_active = false) := by
  constructor
  · intro s hs
    rw [findSession_end_session_same, findSession_end_session_same, hs]
    rfl
  · intro ops
    induction ops generalizing store with
    | nil =>
      intro h
      simpa [applySessionOps] using h
    | cons op rest ih =>
      intro h
      simp only [applySessionOps, List.foldl_cons]
      exact ih _ (closed_preserved_op _ _ _ h)

section RatKernelEval6

attribute [local semireducible] Rat.sub Rat.add Rat.mul Rat.inv Rat.ofScientific

/-- C7 witness: a concrete run — ending the session `"s1"` twice leaves it
closed with `ended_at` refreshed, and a later duplicate `create_session`
plus another `end_session` never re-activate it. -/
theorem end_session_idempotent_closed_forever_witness :
    (findSession (end_session (end_session [⟨"s1", "u1", 0, 0, true, none⟩] "s1" 1) "s1" 2) "s1" =
      some ⟨"s1", "u1", 0, 2, false, some 2⟩) ∧
    (∃ s2, findSession (applySessionOps [⟨"s1", "u1", 0, 1, false, some 1⟩]
        [SessionOp.create "u2" "s1" 2, SessionOp.close "s1" 3]) "s1" = some s2 ∧
      s2.is_active = false) :=
  ⟨(end_session_idempotent_closed_forever [⟨"s1", "u1", 0, 0, true, none⟩] "s1" 1 2).1
      ⟨"s1", "u1", 0, 0, true, none⟩ rfl,
   (end_session_idempotent_closed_forever [⟨"s1", "u1", 0, 1, false, some 1⟩] "s1" 0 0).2
      [SessionOp.create "u2" "s1" 2, SessionOp.close "s1" 3]
      ⟨⟨"s1", "u1", 0, 1, false, some 1⟩, rfl, rfl⟩⟩

end RatKernelEval6

/-- C8.  `get_conversation_history` returns the empty sequence — never an
error — when the store is unavailable or the query raises, and when no
document matches; when there are results they are sorted newest-first
(descending timestamp), are a permutation-preserving sort of exactly the
matching documents, and are paginated by `offset`-skip and `limit`-take. -/
theorem get_conversation_history_resilient
    (user_id conversation_id session_id : Option String)
    (limit offset : ℕ) (msg : String) (docs : List ConvDoc) :
    (get_conversation_history (Except.error msg) user_id conversation_id
      session_id limit offset = []) ∧
    (docs.filter (matchesQuery user_id conversation_id session_id) = [] →
      get_conversation_history (Except.ok docs) user_id conversation_id
        session_id limit offset = []) ∧
    List.Sorted newestFirst (get_conversation_history (Except.ok docs)
      user_id conversation_id session_id limit offset) ∧
    ((docs.filter (matchesQuery user_id conversation_id session_id)).insertionSort
        newestFirst).Perm
      (docs.filter (matchesQuery user_id conversation_id session_id)) ∧
    (get_conversation_history (Except.ok docs) user_id conversation_id
        session_id limit offset =
      mongoLimit limit
        (((docs.filter (matchesQuery user_id conversation_id
          session_id)).insertionSort newestFirst).drop offset)) ∧
    (0 < limit →
      (get_conversation_history (Except.ok docs) user_id conversation_id
        session_id limit offset).length ≤ limit) := by
  refine ⟨rfl, ?_, ?_, List.perm_insertionSort _ _, rfl, ?_⟩
  · intro h
    simp [get_conversation_history, h, mongoLimit]
  · have hs := List.sorted_insertionSort newestFirst
      (docs.filter (matchesQuery user_id conversation_id session_id))
    have hsub : (get_conversation_history (Except.ok docs) user_id
        conversation_id session_id limit offset).Sublist
        ((docs.filter (matchesQuery user_id conversation_id
          session_id)).insertionSort newestFirst) := by
      simp only [get_conversation_history, mongoLimit]
      split
      · exact List.drop_sublist _ _
      · exact (List.take_sublist _ _).trans (List.drop_sublist _ _)
    exact List.Pairwise.sublist hsub hs
  · intro hl
    simp only [get_conversation_history, mongoLimit,
      if_neg (Nat.pos_iff_ne_zero.mp hl)]
    rw [List.length_take]
    exact min_le_left _ _

/-- C8 witness: an unavailable store yields `[]`, and with three stored
documents and `limit = 1` at most one document is returned. -/
theorem get_conversation_history_resilient_witness :
    (get_conversation_history (Except.error "store unavailable")
      (some "u1") none none 10 0 = []) ∧
    ((get_conversation_history (Except.ok
        [⟨"c1", "u1", none, 3, "m1", "r1", "text", [], 3, 3⟩,
         ⟨"c1", "u1", none, 1, "m2", "r2", "text", [], 1, 1⟩,
         ⟨"c2", "u1", none, 2, "m3", "r3", "voice", [], 2, 2⟩])
      (some "u1") none none 1 0).length ≤ 1) :=
  ⟨(get_conversation_history_resilient (some "u1") none none 10 0
      "store unavailable" []).1,
   (get_conversation_history_resilient (some "u1") none none 1 0 ""
      [⟨"c1", "u1", none, 3, "m1", "r1", "text", [], 3, 3⟩,
       ⟨"c1", "u1", none, 1, "m2", "r2", "text", [], 1, 1⟩,
       ⟨"c2", "u1", none, 2, "m3", "r3", "voice", [], 2, 2⟩]).2.2.2.2.2 (by decide)⟩

/-- C9.  `start_listening` returns `false` and leaves the state unchanged
(hence still not listening) whenever the recognizer or the microphone is
unavailable; `stop_listening` always returns `true` and always leaves
`is_listening = false`, even on a freshly initialised service that never
started listening (`__init__` starts with `is_listening = False`). -/
theorem voice_listening_behaviour (v : VoiceService) :
    ((v.recognizer = false ∨ v.microphone = false) →
      v.start_listening = (false, v)) ∧
    (v.stop_listening.1 = true) ∧
    (v.stop_listening.2.is_listening = false) ∧
    (∀ ttsOk captureOk, (VoiceService.initState ttsOk captureOk).is_listening = false) := by
  refine ⟨?_, rfl, rfl, fun _ _ => rfl⟩
  rintro (h | h) <;> simp [VoiceService.start_listening, h]

/-- C9 witness: a service whose speech-recognition initialisation failed —
`start_listening` refuses and the state (still `Idle`) is untouched. -/
theorem voice_listening_behaviour_witness :
    (VoiceService.initState true false).start_listening =
      (false, VoiceService.initState true false) :=
  (voice_listening_behaviour (VoiceService.initState true false)).1 (Or.inl rfl)

/-- C10.  When `create_conversation` is called without a caller-supplied
`conversation_id`, the generated id is `"conv_"` followed by the current
Unix timestamp truncated to whole seconds (truncation = floor for the
nonnegative Unix times); two turns created without explicit ids during the
same second (equal whole-second floor) receive the identical generated
`conversation_id`. -/
theorem conversation_id_same_second (um ar uid mtype : String)
    (sid : Option String) (md : List (String × String)) (t1 t2 : ℚ) :
    ((create_conversation um ar uid none sid mtype md t1).conversation_id =
      "conv_" ++ toString (pyIntTrunc t1)) ∧
    (0 ≤ t1 → pyIntTrunc t1 = ⌊t1⌋) ∧
    (0 ≤ t1 → 0 ≤ t2 → ⌊t1⌋ = ⌊t2⌋ →
      (create_conversation um ar uid none sid mtype md t1).conversation_id =
        (create_conversation um ar uid none sid mtype md t2).conversation_id) := by
  refine ⟨rfl, fun h => by simp [pyIntTrunc, h], fun h1 h2 hf => ?_⟩
  simp [create_conversation, genConversationId, pyIntTrunc, h1, h2, hf]

/-- C10 witness: timestamps `5` and `5.5` fall in the same second and
generate the identical conversation id. -/
theorem conversation_id_same_second_witness :
    (0 : ℚ) ≤ 5 ∧ (0 : ℚ) ≤ 11 / 2 ∧ ⌊(5 : ℚ)⌋ = ⌊(11 / 2 : ℚ)⌋ ∧
    (create_conversation "hello" "hi there" "anonymous" none none "text" [] 5).conversation_id =
      (create_conversation "hello" "hi there" "anonymous" none none "text" []
        (11 / 2)).conversation_id :=
  ⟨by norm_num, by norm_num, by norm_num,
    (conversation_id_same_second "hello" "hi there" "anonymous" "text" none [] 5
      (11 / 2)).2.2 (by norm_num) (by norm_num) (by norm_num)⟩

end ZyeonAI
